import Mathlib

/-!
Shallow embedding of the core of the `github-mcp` Python server:
the Parameter Contract & Validation layer (`src/github/server.py`) and
the Toolset Composition & Access-Control Registry
(`src/github_mcp/tools.py`, `src/server.py`).

Python values appearing in a tool request's argument map are modelled by
the tagged type `PyVal`.  Python floats are modelled as exact rationals:
no claim under consideration depends on floating-point rounding, only on
`isinstance` classification, comparison with zero, and truncation to int.
Python's `bool` is a subclass of `int`, so `isinstance(True, int)` holds
and `False == 0`; the embedding reproduces both facts.
-/

/-- A Python value as it can occur in a request argument map:
`None`, `str`, `int`, `bool`, `float`, `list`, `dict`, or an arbitrary
non-JSON object (`obj`, tagged by its Python type name). -/
inductive PyVal where
  | null
  | str (s : String)
  | int (n : Int)
  | bool (b : Bool)
  | float (q : Rat)
  | list (xs : List PyVal)
  | dict (xs : List (String × PyVal))
  | obj (tag : String)
  deriving Repr

/-- The type arguments the source passes to `required_param` /
`optional_param`: a single Python type, or the tuple `(int, float)` used
by the integer helpers. -/
inductive PyKind where
  | str
  | int
  | bool
  | listK
  | dictK
  | intOrFloat
  deriving Repr, DecidableEq

/-- Python's `type(value).__name__` for a `PyVal`. -/
def pyTypeName : PyVal → String
  | .null => "NoneType"
  | .str _ => "str"
  | .int _ => "int"
  | .bool _ => "bool"
  | .float _ => "float"
  | .list _ => "list"
  | .dict _ => "dict"
  | .obj tag => tag

/-- Model of `param_type.__name__` for the single-type kinds (the tuple kind
`(int, float)` has no `__name__` in Python; see `PErr.attributeFault`). -/
def kindName : PyKind → String
  | .str => "str"
  | .int => "int"
  | .bool => "bool"
  | .listK => "list"
  | .dictK => "dict"
  | .intOrFloat => "int|float"

/-- Python `isinstance(value, param_type)`.  `bool` is a subclass of
`int`, hence a `bool` value is an instance of `int` and of the tuple
`(int, float)`; no other cross-kind instance holds among these types. -/
def isInst : PyVal → PyKind → Bool
  | .str _, .str => true
  | .int _, .int => true
  | .bool _, .int => true
  | .bool _, .bool => true
  | .int _, .intOrFloat => true
  | .bool _, .intOrFloat => true
  | .float _, .intOrFloat => true
  | .list _, .listK => true
  | .dict _, .dictK => true
  | _, _ => false

/-- Python `value == type(value)()`: equality of a value with the zero
value of its own runtime type (`""`, `0`, `False`, `0.0`, `[]`, `{}`;
`NoneType()` is `None` itself; a fresh default `object()` is never equal
to an existing one). -/
def isZeroVal : PyVal → Bool
  | .null => true
  | .str s => s == ""
  | .int n => n == 0
  | .bool b => b == false
  | .float q => q == 0
  | .list xs => xs.isEmpty
  | .dict xs => xs.isEmpty
  | .obj _ => false

/-- Errors produced (as values) by the parameter helpers; each
constructor records the data interpolated into the source's
`ValueError` message. -/
inductive PErr where
  | missingParameter (param : String)
  | typeMismatch (param : String) (expected : String) (got : String)
  | nonStringElement (param : String) (got : String)
  | notStringArray (param : String) (got : String)
  | attributeFault (param : String)
  deriving Repr, DecidableEq

/-- The argument map of a request: Python dict with string keys
(unique, insertion ordered). -/
def Args := List (String × PyVal)

/-- Model of `required_param(request, param_name, param_type)` from
`src/github/server.py`: absent key, then `isinstance` check, then the
zero-value check `value == type(value)()` (the `hasattr(value, '__eq__')`
guard is always true for Python objects).  For the tuple kind
`(int, float)` a failing `isinstance` would make the source's f-string
evaluate `(int, float).__name__`, which raises `AttributeError`; that
raised fault is modelled by `PErr.attributeFault` (no claim reaches this
branch). -/
def required_param (args : Args) (name : String) (kind : PyKind) :
    Option PyVal × Option PErr :=
  match List.lookup name args with
  | none => (none, some (.missingParameter name))
  | some v =>
    if isInst v kind then
      if isZeroVal v then (none, some (.missingParameter name))
      else (some v, none)
    else
      if kind = .intOrFloat then (none, some (.attributeFault name))
      else (none, some (.typeMismatch name (kindName kind) (pyTypeName v)))

/-- Truncation toward zero of a rational, the behaviour of Python's
`int(float)`. -/
def truncRat (q : Rat) : Int := q.num.tdiv q.den

/-- Model of `required_int_param(request, param_name)`: `required_param` with the
tuple `(int, float)`, truncating a float result to int. -/
def required_int_param (args : Args) (name : String) : PyVal × Option PErr :=
  match required_param args name .intOrFloat with
  | (_, some e) => (.int 0, some e)
  | (some (.float q), none) => (.int (truncRat q), none)
  | (some v, none) => (v, none)
  | (none, none) => (.null, none)

/-- Model of `optional_param(request, param_name, param_type)`: absent is not an
error; a present value of the wrong kind is a `TypeMismatch` (with the
same `AttributeError` caveat for the tuple kind as `required_param`). -/
def optional_param (args : Args) (name : String) (kind : PyKind) :
    Option PyVal × Option PErr :=
  match List.lookup name args with
  | none => (none, none)
  | some v =>
    if isInst v kind then (some v, none)
    else
      if kind = .intOrFloat then (none, some (.attributeFault name))
      else (none, some (.typeMismatch name (kindName kind) (pyTypeName v)))

/-- Model of `optional_int_param(request, param_name)`: `optional_param` with the
tuple `(int, float)`, truncating floats. -/
def optional_int_param (args : Args) (name : String) :
    Option PyVal × Option PErr :=
  match optional_param args name .intOrFloat with
  | (_, some e) => (none, some e)
  | (none, none) => (none, none)
  | (some (.float q), none) => (some (.int (truncRat q)), none)
  | (some v, none) => (some v, none)

/-- Model of `optional_int_param_with_default(request, param_name, default)`:
substitutes `default` exactly on the `None` (absent) result of
`optional_int_param`. -/
def optional_int_param_with_default (args : Args) (name : String)
    (dflt : Int) : PyVal × Option PErr :=
  match optional_int_param args name with
  | (_, some e) => (.int 0, some e)
  | (none, none) => (.int dflt, none)
  | (some v, none) => (v, none)

/-- The element loop of `optional_string_array_param`: left-to-right,
failing at the first non-string element with its type name. -/
def collect_strings (name : String) : List PyVal →
    Option (List String) × Option PErr
  | [] => (some [], none)
  | .str s :: rest =>
    match collect_strings name rest with
    | (some ss, none) => (some (s :: ss), none)
    | r => r
  | v :: _ => (none, some (.nonStringElement name (pyTypeName v)))

/-- Model of `optional_string_array_param(request, param_name)` from
`src/github/server.py`: absent or `None` gives `[]` with no error; a
list must be all strings; any other value is a coercion failure. -/
def optional_string_array_param (args : Args) (name : String) :
    Option (List String) × Option PErr :=
  match List.lookup name args with
  | none => (some [], none)
  | some v =>
    match v with
    | .null => (some [], none)
    | .list xs =>
      if xs.isEmpty then (some [], none)
      else collect_strings name xs
    | v => (none, some (.notStringArray name (pyTypeName v)))

/-- Model of `PaginationParams` (its constructor defaults are page 1,
per_page 30, after "").  The int fields hold `PyVal` because the Python
helpers can hand back a `bool` (a Python int) unchanged. -/
structure PaginationParams where
  page : PyVal
  per_page : PyVal
  after : String
  deriving Repr

/-- Model of `PaginationParams()` built with all defaults. -/
def PaginationParams.default : PaginationParams := ⟨.int 1, .int 30, ""⟩

/-- Model of `optional_pagination_params(request)`: page and perPage via
`optional_int_param_with_default` (defaults 1 and 30), `after` via
`optional_param(..., str)` then `after or ""`. -/
def optional_pagination_params (args : Args) :
    PaginationParams × Option PErr :=
  match optional_int_param_with_default args "page" 1 with
  | (_, some e) => (PaginationParams.default, some e)
  | (page, none) =>
    match optional_int_param_with_default args "perPage" 30 with
    | (_, some e) => (PaginationParams.default, some e)
    | (perPage, none) =>
      match optional_param args "after" .str with
      | (_, some e) => (PaginationParams.default, some e)
      | (afterOpt, none) =>
        let after := match afterOpt with
          | some (.str s) => s
          | _ => ""
        (⟨page, perPage, after⟩, none)

/-!
Toolset Composition & Access-Control Registry
(`src/github_mcp/tools.py` and the registration loop of
`src/server.py`).  A tool is modelled by its registered metadata (name
and description); the paired handler callables play no role in any
claim and are elided.
-/

/-- The metadata of a tool as registered with the host
(`mcp.add_tool(handler, name=..., description=...)`). -/
structure Tool where
  name : String
  description : String
  deriving Repr, DecidableEq

/-- Model of `Toolset` from `src/github_mcp/tools.py`: a named, described
collection of read tools and write tools with an `enabled` flag
(initially false; the catalog sets it).  The `resource_templates` and
`prompts` lists are never populated by the source and are elided. -/
structure Toolset where
  name : String
  description : String
  read_tools : List Tool
  write_tools : List Tool
  enabled : Bool
  deriving Repr, DecidableEq

/-- Model of `ToolsetGroup`: the registry. `toolsets` models the Python dict
(string keys, unique, insertion ordered) as an association list. -/
structure ToolsetGroup where
  read_only : Bool
  toolsets : List (String × Toolset)
  deriving Repr, DecidableEq

/-- Model of `ToolsetGroup.enable_toolset(name)`: if `name` is a key, set that
toolset's `enabled` to true and return `True`; otherwise return `False`
without touching anything.  Python mutates in place; here the updated
group is returned alongside the boolean. -/
def ToolsetGroup.enable_toolset (g : ToolsetGroup) (name : String) :
    Bool × ToolsetGroup :=
  if (List.lookup name g.toolsets).isSome then
    (true,
     { g with toolsets := g.toolsets.map fun p =>
        if p.1 = name then (p.1, { p.2 with enabled := true }) else p })
  else (false, g)

/-- Model of `ToolsetGroup.get_enabled_toolsets()`: the enabled toolsets in
insertion order. -/
def ToolsetGroup.get_enabled_toolsets (g : ToolsetGroup) : List Toolset :=
  (g.toolsets.map Prod.snd).filter fun ts => ts.enabled

/-- The registration loop of `create_server` (`src/server.py`
lines 69-99): for each enabled toolset, register its read tools, then
its write tools only when the group is not read-only.  The result is
the exposed-tool listing the host sees. -/
def registered_tools (g : ToolsetGroup) : List Tool :=
  g.get_enabled_toolsets.flatMap fun ts =>
    ts.read_tools ++ if g.read_only then [] else ts.write_tools

/-- The per-toolset classification loop of `default_toolset_group`: a
tool whose name is in the hardcoded write-name list goes to the write
set, every other tool to the read set. -/
def classify_tools (writeNames : List String) (tools : List Tool)
    (ts : Toolset) : Toolset :=
  match tools with
  | [] => ts
  | t :: rest =>
    if t.name ∈ writeNames then
      classify_tools writeNames rest
        { ts with write_tools := ts.write_tools ++ [t] }
    else
      classify_tools writeNames rest
        { ts with read_tools := ts.read_tools ++ [t] }

/-- Model of `init_dynamic_toolset(server, tsg, translator)` from
`src/github_mcp/tools.py` lines 256-275: builds the toolset named
`"dynamic"`, sets `enabled = True`, and returns it.  The source adds no
read tool and no write tool to it; the `server`, `tsg` and `translator`
arguments are never used to populate it. -/
def init_dynamic_toolset (_tsg : ToolsetGroup) : Toolset :=
  { name := "dynamic"
    description := "Discover GitHub MCP tools that can help achieve tasks by enabling additional sets of tools"
    read_tools := []
    write_tools := []
    enabled := true }

/-!
Result Encoder (`marshalled_text_result` in `src/github/server.py`).
`json.dumps` is the Python standard library: it renders JSON values and
raises `TypeError` on a non-serializable object.  The model below
reproduces exactly that success/failure split; the concrete rendering
of floats and string escapes is schematic (no claim depends on the
rendered characters, only on which payloads serialize).
-/

mutual

/-- Model of `json.dumps` on a `PyVal`: succeeds on JSON-shaped values,
fails (as `json.dumps` raises `TypeError`) on any embedded non-JSON
object. -/
def jsonDumps : PyVal → Except String String
  | .null => .ok "null"
  | .str s => .ok ("\"" ++ s ++ "\"")
  | .int n => .ok (toString n)
  | .bool b => .ok (if b then "true" else "false")
  | .float q => .ok (toString q.num ++ "e" ++ toString q.den)
  | .list xs =>
    match jsonDumpsList xs with
    | .ok parts => .ok ("[" ++ String.intercalate ", " parts ++ "]")
    | .error e => .error e
  | .dict xs =>
    match jsonDumpsDict xs with
    | .ok parts => .ok ("\x7b" ++ String.intercalate ", " parts ++ "\x7d")
    | .error e => .error e
  | .obj tag => .error ("Object of type " ++ tag ++ " is not JSON serializable")

/-- Model of `json.dumps` over the elements of a list. -/
def jsonDumpsList : List PyVal → Except String (List String)
  | [] => .ok []
  | x :: rest =>
    match jsonDumps x, jsonDumpsList rest with
    | .ok s, .ok ss => .ok (s :: ss)
    | .error e, _ => .error e
    | _, .error e => .error e

/-- Model of `json.dumps` over the entries of a dict. -/
def jsonDumpsDict : List (String × PyVal) → Except String (List String)
  | [] => .ok []
  | (k, v) :: rest =>
    match jsonDumps v, jsonDumpsDict rest with
    | .ok s, .ok ss => .ok (("\"" ++ k ++ "\": " ++ s) :: ss)
    | .error e, _ => .error e
    | _, .error e => .error e

end

/-- Model of `CallToolResult` as constructed by `marshalled_text_result`: either
`type="text"` carrying the serialized payload, or `type="error"`
carrying a message. -/
inductive CallToolResult where
  | text (s : String)
  | error (message : String)
  deriving Repr, DecidableEq

/-- Model of `marshalled_text_result(data)`: serialize `data` with `json.dumps`
and wrap it; a serialization fault is caught and turned into an error
result, never re-raised. -/
def marshalled_text_result (data : PyVal) : CallToolResult :=
  match jsonDumps data with
  | .ok s => .text s
  | .error e => .error ("failed to marshal text result to json: " ++ e)

/-!
Claim theorems.
-/

/-- The spec's "value equals the kind's zero value" under Python `==`:
`""` for string, `0` for int, `False` for bool; Python's numeric
equality makes `False == 0` and `0.0 == 0`, so for the int kind a
bool `False` or float `0.0` also counts. -/
def eqKindZero : PyKind → PyVal → Bool
  | .str, .str s => s == ""
  | .int, .int n => n == 0
  | .int, .bool b => b == false
  | .int, .float q => q == 0
  | .bool, .bool b => b == false
  | .bool, .int n => n == 0
  | .bool, .float q => q == 0
  | _, _ => false

/-- C1: for every request and required string/int/bool parameter,
`required_param` gives `MissingParameter` when the name is absent,
`TypeMismatch` when the value is present but not an instance of the
kind, `MissingParameter` again when the value equals the kind's zero
value, and the value with no error otherwise. -/
theorem c1_required_param_contract (args : Args) (name : String)
    (kind : PyKind) (hk : kind = .str ∨ kind = .int ∨ kind = .bool) :
    (List.lookup name args = none →
      required_param args name kind = (none, some (.missingParameter name))) ∧
    (∀ v, List.lookup name args = some v → isInst v kind = false →
      required_param args name kind =
        (none, some (.typeMismatch name (kindName kind) (pyTypeName v)))) ∧
    (∀ v, List.lookup name args = some v → isInst v kind = true →
      eqKindZero kind v = true →
      required_param args name kind = (none, some (.missingParameter name))) ∧
    (∀ v, List.lookup name args = some v → isInst v kind = true →
      eqKindZero kind v = false →
      required_param args name kind = (some v, none)) := by
  have hz : ∀ v, isInst v kind = true → isZeroVal v = eqKindZero kind v := by
    intro v hv
    rcases hk with h | h | h <;> subst h <;> cases v <;>
      simp_all [isInst, isZeroVal, eqKindZero]
  have hnotf : ¬ kind = .intOrFloat := by
    rcases hk with h | h | h <;> subst h <;> simp
  refine ⟨?_, ?_, ?_, ?_⟩
  · intro h; simp [required_param, h]
  · intro v hv hinst; simp [required_param, hv, hinst, hnotf]
  · intro v hv hinst hzero
    have := hz v hinst
    simp [required_param, hv, hinst, this, hzero]
  · intro v hv hinst hzero
    have := hz v hinst
    simp [required_param, hv, hinst, this, hzero]

/-- Witness for C1 at concrete inputs: a present non-empty string is
returned; an absent name, a present zero int, and a wrongly-typed value
fail as claimed. -/
theorem c1_required_param_contract_witness :
    required_param [("owner", PyVal.str "o")] "owner" .str
      = (some (.str "o"), none) ∧
    required_param [] "owner" .str
      = (none, some (.missingParameter "owner")) ∧
    required_param [("count", PyVal.int 0)] "count" .int
      = (none, some (.missingParameter "count")) ∧
    required_param [("flag", PyVal.int 3)] "flag" .bool
      = (none, some (.typeMismatch "flag" "bool" "int")) := by
  refine ⟨?_, ?_, ?_, ?_⟩
  · exact (c1_required_param_contract [("owner", .str "o")] "owner" .str
      (Or.inl rfl)).2.2.2 _ rfl rfl rfl
  · exact (c1_required_param_contract [] "owner" .str (Or.inl rfl)).1 rfl
  · exact (c1_required_param_contract [("count", .int 0)] "count" .int
      (Or.inr (Or.inl rfl))).2.2.1 _ rfl rfl rfl
  · exact (c1_required_param_contract [("flag", .int 3)] "flag" .bool
      (Or.inr (Or.inr rfl))).2.1 _ rfl rfl

/-- C9: a Python boolean satisfies the integer `isinstance` check, so a
required integer parameter given as `True` is returned as the value
with no error, while `False` is rejected as `MissingParameter` because
it equals the integer zero value. -/
theorem c9_bool_satisfies_int_kind (args : Args) (name : String) :
    (List.lookup name args = some (.bool true) →
      required_param args name .int = (some (.bool true), none) ∧
      required_int_param args name = (.bool true, none)) ∧
    (List.lookup name args = some (.bool false) →
      required_param args name .int = (none, some (.missingParameter name)) ∧
      required_int_param args name
        = (.int 0, some (.missingParameter name))) := by
  constructor
  · intro h
    refine ⟨?_, ?_⟩
    · simp [required_param, h, isInst, isZeroVal]
    · simp [required_int_param, required_param, h, isInst, isZeroVal]
  · intro h
    refine ⟨?_, ?_⟩
    · simp [required_param, h, isInst, isZeroVal]
    · simp [required_int_param, required_param, h, isInst, isZeroVal]

/-- Witness for C9: `True` and `False` as a required int parameter. -/
theorem c9_bool_satisfies_int_kind_witness :
    required_int_param [("n", PyVal.bool true)] "n" = (.bool true, none) ∧
    required_int_param [("n", PyVal.bool false)] "n"
      = (.int 0, some (.missingParameter "n")) :=
  ⟨((c9_bool_satisfies_int_kind [("n", .bool true)] "n").1 rfl).2,
   ((c9_bool_satisfies_int_kind [("n", .bool false)] "n").2 rfl).2⟩

/-- C4: `optional_int_param_with_default` substitutes the default
exactly when the key is absent; a present integer value — including an
explicit `0` — is returned unchanged, never replaced by the default. -/
theorem c4_optional_int_default_only_on_absence (args : Args)
    (name : String) (dflt : Int) :
    (List.lookup name args = none →
      optional_int_param_with_default args name dflt = (.int dflt, none)) ∧
    (∀ n : Int, List.lookup name args = some (.int n) →
      optional_int_param_with_default args name dflt = (.int n, none)) := by
  constructor
  · intro h
    simp [optional_int_param_with_default, optional_int_param,
          optional_param, h]
  · intro n h
    simp [optional_int_param_with_default, optional_int_param,
          optional_param, h, isInst]

/-- Witness for C4: no `perPage` key gives 30; an explicit `perPage=0`
gives 0, not the default. -/
theorem c4_optional_int_default_only_on_absence_witness :
    optional_int_param_with_default [] "perPage" 30 = (.int 30, none) ∧
    optional_int_param_with_default [("perPage", PyVal.int 0)] "perPage" 30
      = (.int 0, none) :=
  ⟨(c4_optional_int_default_only_on_absence [] "perPage" 30).1 rfl,
   (c4_optional_int_default_only_on_absence [("perPage", .int 0)]
      "perPage" 30).2 0 rfl⟩

/-- C6: with none of `page`, `perPage`, `after` present,
`optional_pagination_params` yields page 1, perPage 30, after `""` with
no error; and a present integer `perPage` — any integer, in or out of
the schema's `[1,100]` — is returned unchanged with no error: the
resolver performs no range check. -/
theorem c6_pagination_resolver (args : Args)
    (hpage : List.lookup "page" args = none)
    (hafter : List.lookup "after" args = none) :
    (List.lookup "perPage" args = none →
      optional_pagination_params args = (⟨.int 1, .int 30, ""⟩, none)) ∧
    (∀ n : Int, List.lookup "perPage" args = some (.int n) →
      optional_pagination_params args = (⟨.int 1, .int n, ""⟩, none)) := by
  constructor
  · intro h
    simp [optional_pagination_params, optional_int_param_with_default,
          optional_int_param, optional_param, hpage, hafter, h]
  · intro n h
    simp [optional_pagination_params, optional_int_param_with_default,
          optional_int_param, optional_param, hpage, hafter, h, isInst]

/-- Witness for C6: the empty request resolves to all defaults, and an
out-of-range `perPage=200` is passed through unchanged. -/
theorem c6_pagination_resolver_witness :
    optional_pagination_params [] = (⟨.int 1, .int 30, ""⟩, none) ∧
    optional_pagination_params [("perPage", PyVal.int 200)]
      = (⟨.int 1, .int 200, ""⟩, none) :=
  ⟨(c6_pagination_resolver [] rfl rfl).1 rfl,
   (c6_pagination_resolver [("perPage", .int 200)] rfl rfl).2 200 rfl⟩

/-- The element loop maps a list that is entirely strings to exactly
those strings. -/
theorem collect_strings_all_str (name : String) (ss : List String) :
    collect_strings name (ss.map PyVal.str) = (some ss, none) := by
  induction ss with
  | nil => rfl
  | cons s rest ih => simp [collect_strings, ih]

/-- The element loop fails at the first non-string element, reporting
that element's type name. -/
theorem collect_strings_first_bad (name : String) (pre : List PyVal)
    (v : PyVal) (post : List PyVal)
    (hpre : ∀ u ∈ pre, ∃ s, u = PyVal.str s)
    (hv : ∀ s, v ≠ PyVal.str s) :
    collect_strings name (pre ++ v :: post)
      = (none, some (.nonStringElement name (pyTypeName v))) := by
  induction pre with
  | nil =>
    simp only [List.nil_append]
    cases v with
    | str s => exact absurd rfl (hv s)
    | null => rfl
    | int n => rfl
    | bool b => rfl
    | float q => rfl
    | list xs => rfl
    | dict xs => rfl
    | obj tag => rfl
  | cons u rest ih =>
    obtain ⟨s, rfl⟩ := hpre u (List.mem_cons_self u rest)
    have ih2 := ih fun w hw => hpre w (List.mem_cons_of_mem _ hw)
    simp [collect_strings, ih2]

/-- C5: `optional_string_array_param` returns `[]` with no error on an
absent key or an explicit null; returns a list of strings unchanged
(including the empty list); fails with an error naming the first
non-string element of a mixed list; and fails with a type error on a
present non-list, non-null value. -/
theorem c5_optional_string_array_param (args : Args) (name : String) :
    (List.lookup name args = none →
      optional_string_array_param args name = (some [], none)) ∧
    (List.lookup name args = some .null →
      optional_string_array_param args name = (some [], none)) ∧
    (∀ ss : List String,
      List.lookup name args = some (.list (ss.map PyVal.str)) →
      optional_string_array_param args name = (some ss, none)) ∧
    (∀ pre v post,
      List.lookup name args = some (.list (pre ++ v :: post)) →
      (∀ u ∈ pre, ∃ s, u = PyVal.str s) →
      (∀ s, v ≠ PyVal.str s) →
      optional_string_array_param args name
        = (none, some (.nonStringElement name (pyTypeName v)))) ∧
    (∀ v, List.lookup name args = some v →
      v ≠ .null → (∀ xs, v ≠ .list xs) →
      optional_string_array_param args name
        = (none, some (.notStringArray name (pyTypeName v)))) := by
  refine ⟨?_, ?_, ?_, ?_, ?_⟩
  · intro h; simp [optional_string_array_param, h]
  · intro h; simp [optional_string_array_param, h]
  · intro ss h
    cases ss with
    | nil => simp [optional_string_array_param, h]
    | cons s rest =>
      have hall := collect_strings_all_str name (s :: rest)
      rw [List.map_cons] at hall
      simp [optional_string_array_param, h, hall]
  · intro pre v post h hpre hv
    have hne : ((pre ++ v :: post).isEmpty) = false := by
      cases pre <;> rfl
    simp [optional_string_array_param, h, hne,
          collect_strings_first_bad name pre v post hpre hv]
  · intro v h hnull hlist
    cases v with
    | null => exact absurd rfl hnull
    | list xs => exact absurd rfl (hlist xs)
    | str s => simp [optional_string_array_param, h, pyTypeName]
    | int n => simp [optional_string_array_param, h, pyTypeName]
    | bool b => simp [optional_string_array_param, h, pyTypeName]
    | float q => simp [optional_string_array_param, h, pyTypeName]
    | dict xs => simp [optional_string_array_param, h, pyTypeName]
    | obj tag => simp [optional_string_array_param, h, pyTypeName]

/-- Witness for C5 at the spec's own examples: `["a","b"]`, `[]`,
`["a", 5]`, absent key, and a non-sequence value. -/
theorem c5_optional_string_array_param_witness :
    optional_string_array_param
      [("labels", PyVal.list [PyVal.str "a", PyVal.str "b"])] "labels"
      = (some ["a", "b"], none) ∧
    optional_string_array_param [("labels", PyVal.list [])] "labels"
      = (some [], none) ∧
    optional_string_array_param
      [("labels", PyVal.list [PyVal.str "a", PyVal.int 5])] "labels"
      = (none, some (.nonStringElement "labels" "int")) ∧
    optional_string_array_param [] "labels" = (some [], none) ∧
    optional_string_array_param [("labels", PyVal.int 7)] "labels"
      = (none, some (.notStringArray "labels" "int")) := by
  refine ⟨?_, ?_, ?_, ?_, ?_⟩
  · exact (c5_optional_string_array_param
      [("labels", .list [.str "a", .str "b"])] "labels").2.2.1 ["a", "b"] rfl
  · exact (c5_optional_string_array_param
      [("labels", .list [])] "labels").2.2.1 [] rfl
  · exact (c5_optional_string_array_param
      [("labels", .list [.str "a", .int 5])] "labels").2.2.2.1
      [.str "a"] (.int 5) [] rfl
      (by intro u hu; rw [List.mem_singleton] at hu; exact ⟨"a", hu⟩)
      (fun s hs => PyVal.noConfusion hs)
  · exact (c5_optional_string_array_param [] "labels").1 rfl
  · exact (c5_optional_string_array_param
      [("labels", .int 7)] "labels").2.2.2.2 (.int 7) rfl
      (fun hs => PyVal.noConfusion hs)
      (fun xs hs => PyVal.noConfusion hs)

/-- Looking a key up after the per-key enable update: the found toolset
is the old one with `enabled := true`; an absent key stays absent. -/
theorem lookup_map_enable (name : String) (l : List (String × Toolset)) :
    List.lookup name
      (l.map fun p =>
        if p.1 = name then (p.1, { p.2 with enabled := true }) else p)
      = (List.lookup name l).map fun ts => { ts with enabled := true } := by
  induction l with
  | nil => rfl
  | cons p rest ih =>
    obtain ⟨k, ts⟩ := p
    simp only [List.map_cons]
    by_cases hk : k = name
    · subst hk
      rw [if_pos rfl]
      simp [List.lookup]
    · rw [if_neg hk]
      have hne : (name == k) = false := beq_eq_false_iff_ne.mpr (Ne.symm hk)
      simp [List.lookup, hne, ih]

/-- C3: `enable_toolset` returns `True` and flips the named toolset's
`enabled` flag to true when the name is a key of the registry; on an
unknown name it returns `False` and the whole registry is unchanged
(the embedding is a total function: no exception is raised). -/
theorem c3_enable_toolset_contract (g : ToolsetGroup) (name : String) :
    (∀ ts, List.lookup name g.toolsets = some ts →
      (g.enable_toolset name).1 = true ∧
      List.lookup name (g.enable_toolset name).2.toolsets
        = some { ts with enabled := true }) ∧
    (List.lookup name g.toolsets = none →
      g.enable_toolset name = (false, g)) := by
  constructor
  · intro ts h
    constructor
    · simp [ToolsetGroup.enable_toolset, h]
    · simp [ToolsetGroup.enable_toolset, h, lookup_map_enable]
  · intro h
    simp [ToolsetGroup.enable_toolset, h]

/-- Tools and toolsets used by the concrete witnesses below. -/
def getIssueTool : Tool := ⟨"get_issue", "Get a GitHub issue"⟩

def createIssueTool : Tool := ⟨"create_issue", "Create a GitHub issue"⟩

def demoIssues : Toolset :=
  { name := "issues"
    description := "GitHub Issues related tools"
    read_tools := [getIssueTool]
    write_tools := [createIssueTool]
    enabled := true }

def demoExperiments : Toolset :=
  { name := "experiments"
    description := "Experimental features"
    read_tools := []
    write_tools := []
    enabled := false }

/-- A read-only registry whose enabled `issues` toolset has a non-empty
write set. -/
def demoGroup : ToolsetGroup :=
  { read_only := true
    toolsets := [("issues", demoIssues), ("experiments", demoExperiments)] }

/-- A writable registry with a disabled `experiments` toolset. -/
def demoGroupRW : ToolsetGroup :=
  { read_only := false
    toolsets := [("experiments", demoExperiments)] }

/-- Witness for C3: enabling `"nonexistent"` returns false and leaves
the registry untouched; enabling `"experiments"` returns true and flips
its flag. -/
theorem c3_enable_toolset_contract_witness :
    demoGroupRW.enable_toolset "nonexistent" = (false, demoGroupRW) ∧
    (demoGroupRW.enable_toolset "experiments").1 = true ∧
    List.lookup "experiments"
        (demoGroupRW.enable_toolset "experiments").2.toolsets
      = some { demoExperiments with enabled := true } :=
  ⟨(c3_enable_toolset_contract demoGroupRW "nonexistent").2 rfl,
   ((c3_enable_toolset_contract demoGroupRW "experiments").1
      demoExperiments rfl).1,
   ((c3_enable_toolset_contract demoGroupRW "experiments").1
      demoExperiments rfl).2⟩

/-- C10: on a name present in the registry, `enable_toolset` changes at
most the `enabled` flag of the toolset keyed by that name: the
read-only flag, every key, and the name, description, read set and
write set of every toolset (and the `enabled` flag of every other
toolset) are unchanged. -/
theorem c10_enable_toolset_frame (g : ToolsetGroup) (name : String)
    (h : (List.lookup name g.toolsets).isSome = true) :
    (g.enable_toolset name).2.read_only = g.read_only ∧
    List.Forall₂
      (fun p q : String × Toolset =>
        q.1 = p.1 ∧ q.2.name = p.2.name ∧
        q.2.description = p.2.description ∧
        q.2.read_tools = p.2.read_tools ∧
        q.2.write_tools = p.2.write_tools ∧
        (p.1 ≠ name → q.2.enabled = p.2.enabled) ∧
        (p.1 = name → q.2.enabled = true))
      g.toolsets (g.enable_toolset name).2.toolsets := by
  constructor
  · simp [ToolsetGroup.enable_toolset, h]
  · have hts : (g.enable_toolset name).2.toolsets
        = g.toolsets.map fun p =>
            if p.1 = name then (p.1, { p.2 with enabled := true }) else p := by
      simp [ToolsetGroup.enable_toolset, h]
    rw [hts, List.forall₂_map_right_iff, List.forall₂_same]
    intro p _
    by_cases hk : p.1 = name
    · simp [hk]
    · simp [hk]

/-- Witness for C10 on the concrete writable registry. -/
theorem c10_enable_toolset_frame_witness :
    (demoGroupRW.enable_toolset "experiments").2.read_only
        = demoGroupRW.read_only ∧
    List.Forall₂
      (fun p q : String × Toolset =>
        q.1 = p.1 ∧ q.2.name = p.2.name ∧
        q.2.description = p.2.description ∧
        q.2.read_tools = p.2.read_tools ∧
        q.2.write_tools = p.2.write_tools ∧
        (p.1 ≠ "experiments" → q.2.enabled = p.2.enabled) ∧
        (p.1 = "experiments" → q.2.enabled = true))
      demoGroupRW.toolsets
      (demoGroupRW.enable_toolset "experiments").2.toolsets :=
  c10_enable_toolset_frame demoGroupRW "experiments" rfl

/-- Under read-only mode the registration loop emits exactly the read
tools of the enabled toolsets. -/
theorem registered_tools_read_only (g : ToolsetGroup)
    (hro : g.read_only = true) :
    registered_tools g
      = g.get_enabled_toolsets.flatMap fun ts => ts.read_tools := by
  simp [registered_tools, hro]

/-- C2: in a registry with `read_only = true`, no tool of any toolset's
write set is ever registered, whatever the enabled flags are.  The
hypothesis `hnames` is the registry construction invariant (tool names
are globally unique and each tool is classified read or write exactly
once, so a write tool's name never also appears among read tools). -/
theorem c2_read_only_omits_write_tools (g : ToolsetGroup)
    (hro : g.read_only = true) (w : Tool) (ts : Toolset)
    (hts : ts ∈ g.toolsets.map Prod.snd) (hw : w ∈ ts.write_tools)
    (hnames : ∀ ts' ∈ g.toolsets.map Prod.snd,
      ∀ r ∈ ts'.read_tools, r.name ≠ w.name) :
    ∀ u ∈ registered_tools g, u.name ≠ w.name := by
  intro u hu
  rw [registered_tools_read_only g hro, List.mem_flatMap] at hu
  obtain ⟨ts', hts', hu⟩ := hu
  exact hnames ts' (List.mem_of_mem_filter hts') u hu

/-- Witness for C2: in the read-only demo registry, the enabled
`issues` toolset's write tool `create_issue` is absent from the
listing. -/
theorem c2_read_only_omits_write_tools_witness :
    createIssueTool ∉ registered_tools demoGroup := fun hmem =>
  c2_read_only_omits_write_tools demoGroup rfl createIssueTool demoIssues
    (by decide) (by decide) (by decide) createIssueTool hmem rfl

/-- C7 (code bug): `init_dynamic_toolset` does build a toolset named
`"dynamic"` with `enabled = True`, but — contrary to its own docstring
"Create a dynamic toolset for enabling other toolsets" and to the
spec's single enable-toolset write tool — it adds no tool at all: both
its write set and its read set are empty, so nothing in it can call
`Registry.enable`. -/
theorem c7_dynamic_toolset_has_no_tools :
    (init_dynamic_toolset ⟨false, []⟩).name = "dynamic" ∧
    (init_dynamic_toolset ⟨false, []⟩).enabled = true ∧
    (init_dynamic_toolset ⟨false, []⟩).write_tools = [] ∧
    (init_dynamic_toolset ⟨false, []⟩).read_tools = [] :=
  ⟨rfl, rfl, rfl, rfl⟩

/-- C8: `marshalled_text_result` always yields a well-formed result:
the text result carrying the serialized payload when `json.dumps`
succeeds, and an error result carrying a message when serialization
fails — the fault is never propagated (the function is total). -/
theorem c8_marshalled_text_result_total (d : PyVal) :
    (∃ s, jsonDumps d = .ok s ∧ marshalled_text_result d = .text s) ∨
    (∃ e, jsonDumps d = .error e ∧
      marshalled_text_result d
        = .error ("failed to marshal text result to json: " ++ e)) := by
  cases h : jsonDumps d with
  | ok s => exact Or.inl ⟨s, rfl, by simp [marshalled_text_result, h]⟩
  | error e => exact Or.inr ⟨e, rfl, by simp [marshalled_text_result, h]⟩

/-- Classification invariant behind C2's disjointness hypothesis: the
per-toolset classification loop of `default_toolset_group` sends a tool
to the write set exactly when its name is on the hardcoded write-name
list, so — starting from a fresh toolset — every resulting write
tool's name is on the list and every resulting read tool's name is
not, and a name can never be classified both ways. -/
theorem classify_tools_invariant (writeNames : List String)
    (tools : List Tool) (ts : Toolset)
    (hw : ∀ t ∈ ts.write_tools, t.name ∈ writeNames)
    (hr : ∀ t ∈ ts.read_tools, t.name ∉ writeNames) :
    (∀ t ∈ (classify_tools writeNames tools ts).write_tools,
      t.name ∈ writeNames) ∧
    (∀ t ∈ (classify_tools writeNames tools ts).read_tools,
      t.name ∉ writeNames) := by
  induction tools generalizing ts with
  | nil => exact ⟨hw, hr⟩
  | cons t rest ih =>
    by_cases ht : t.name ∈ writeNames
    · rw [classify_tools, if_pos ht]
      refine ih _ ?_ hr
      intro u hu
      rw [List.mem_append, List.mem_singleton] at hu
      rcases hu with h | h
      · exact hw u h
      · subst h; exact ht
    · rw [classify_tools, if_neg ht]
      refine ih _ hw ?_
      intro u hu
      rw [List.mem_append, List.mem_singleton] at hu
      rcases hu with h | h
      · exact hr u h
      · subst h; exact ht
